import Mathlib

/-!
Shallow embedding of `src/piet-wgsl/src/shaders.rs`: the shader source
loader (`load_shader_sources`, both the disk-backed branch and the
wasm/embedded branch), and the two pipeline builders (`init_shaders`,
`full_shaders`).

Modelling decisions, all taken from the source:
* `BindType` is the subset of `crate::engine::BindType` actually used in
  this file: `Buffer` (read-write storage buffer, "RW") and
  `BufReadOnly` (read-only storage buffer, "RO").
* The filesystem of the shader directory is a function
  `FS : String → Option String`; `none` models a file that is missing,
  unreadable, or not valid UTF-8 (all of which make
  `fs::read_to_string(..)` return `Err`, and the `.unwrap()` in
  `load_shader_sources` panic).
* The embedded (wasm) backend bakes file contents in at compile time via
  `include_str!`; it is modelled as a total map `String → String` from
  file base name to content, so it can never fail.
* `preprocess` and `get_imports` live in the separate `preprocess`
  module, which is external to this file; every `add_shader` call site
  computes `preprocess(<src>, <features>, &imports)` inline, so a call
  is recorded by the arguments handed to `preprocess` (raw source text
  and feature set) together with the binding signature. The import
  table is the same at every call site of one build and carries no
  information for the properties below, so it is not recorded.
* The engine is external (`crate::engine::Engine`); it is modelled as a
  response oracle `Resp : Nat → Except EngineError ShaderId` giving the
  result of the n-th `add_shader` invocation. Each invocation is
  recorded in a trace, including a failing one.
* A `?`-propagated engine error yields `BuildResult.engineErr`; the
  `unwrap` panic on a failed file read yields `BuildResult.panicked`
  (the process dies before any engine call, so the trace is empty).
-/

namespace PietWgsl

/-- The two binding kinds used by shaders.rs: `Buffer` is a read-write
storage buffer (RW), `BufReadOnly` a read-only one (RO). -/
inductive BindType where
  | Buffer
  | BufReadOnly
deriving DecidableEq, Repr

abbrev ShaderId := Nat

abbrev EngineError := String

/-- The shader directory contents: file name (with extension) to text;
`none` models missing / unreadable / non-UTF-8. -/
def FS := String → Option String

/-- `fs::read_to_string(shader_dir.join(path.to_string() + ".wgsl"))`,
before the `.unwrap()`. -/
def read_shader (fs : FS) (path : String) : Option String :=
  fs (path ++ ".wgsl")

/-- The 12-tuple of strings returned by `load_shader_sources`, fields in
tuple position order. -/
structure Tup12 where
  e0 : String
  e1 : String
  e2 : String
  e3 : String
  e4 : String
  e5 : String
  e6 : String
  e7 : String
  e8 : String
  e9 : String
  e10 : String
  e11 : String
deriving DecidableEq, Repr

/-- Result of `load_shader_sources`: the tuple, or a panic from the
`.unwrap()` on a failed read. -/
inductive LoadResult where
  | panicked
  | ok (t : Tup12)
deriving DecidableEq, Repr

/-- Disk-backed branch of `load_shader_sources` (the
`not(target_arch = "wasm32")` block): reads the twelve files in source
order, left to right, panicking at the first failed read. Tuple
positions 8..11 hold, in order, the contents of `path_coarse.wgsl`,
`backdrop.wgsl`, `coarse.wgsl`, `fine.wgsl`. -/
def load_shader_sources_disk (fs : FS) : LoadResult :=
  match read_shader fs "pathtag_reduce" with
  | none => .panicked
  | some s0 =>
  match read_shader fs "pathtag_scan" with
  | none => .panicked
  | some s1 =>
  match read_shader fs "bbox_clear" with
  | none => .panicked
  | some s2 =>
  match read_shader fs "pathseg" with
  | none => .panicked
  | some s3 =>
  match read_shader fs "draw_reduce" with
  | none => .panicked
  | some s4 =>
  match read_shader fs "draw_leaf" with
  | none => .panicked
  | some s5 =>
  match read_shader fs "binning" with
  | none => .panicked
  | some s6 =>
  match read_shader fs "tile_alloc" with
  | none => .panicked
  | some s7 =>
  match read_shader fs "path_coarse" with
  | none => .panicked
  | some s8 =>
  match read_shader fs "backdrop" with
  | none => .panicked
  | some s9 =>
  match read_shader fs "coarse" with
  | none => .panicked
  | some s10 =>
  match read_shader fs "fine" with
  | none => .panicked
  | some s11 => .ok ⟨s0, s1, s2, s3, s4, s5, s6, s7, s8, s9, s10, s11⟩

/-- The file base names read by the disk-backed branch, in tuple order. -/
def diskShaderNames : List String :=
  ["pathtag_reduce", "pathtag_scan", "bbox_clear", "pathseg",
   "draw_reduce", "draw_leaf", "binning", "tile_alloc",
   "path_coarse", "backdrop", "coarse", "fine"]

/-- Embedded branch of `load_shader_sources` (the
`target_arch = "wasm32"` block): `include_str!` contents baked at
compile time, so loading cannot fail. Note the file order of tuple
positions 8..11: `path_coarse_full.wgsl`, `coarse.wgsl`,
`backdrop_dyn.wgsl`, `fine.wgsl` — which differs from the disk branch. -/
def load_shader_sources_wasm (emb : String → String) : LoadResult :=
  .ok ⟨emb "pathtag_reduce", emb "pathtag_scan", emb "bbox_clear",
       emb "pathseg", emb "draw_reduce", emb "draw_leaf",
       emb "binning", emb "tile_alloc", emb "path_coarse_full",
       emb "coarse", emb "backdrop_dyn", emb "fine"⟩

/-- One recorded `engine.add_shader` invocation: the let-bound stage
name at the call site, the raw source text handed to `preprocess`, the
feature set handed to `preprocess`, and the binding signature slice. -/
structure AddShaderCall where
  stage : String
  source : String
  features : List String
  bindings : List BindType
deriving DecidableEq, Repr

/-- The engine as a response oracle: result of the n-th `add_shader`
invocation (counting from 0). -/
def Resp := Nat → Except EngineError ShaderId

/-- One `engine.add_shader(device, preprocess(..).into(), &[..])` call:
appends the call to the trace and consults the oracle at the index of
this invocation. -/
def add_shader (resp : Resp) (trace : List AddShaderCall) (stage : String)
    (source : String) (features : List String) (bindings : List BindType) :
    List AddShaderCall × Except EngineError ShaderId :=
  (trace ++ [⟨stage, source, features, bindings⟩], resp trace.length)

/-- `struct Shaders` (minimal variant record). -/
structure Shaders where
  pathtag_reduce : ShaderId
  pathtag_scan : ShaderId
  path_coarse : ShaderId
  backdrop : ShaderId
  fine : ShaderId
deriving DecidableEq, Repr

/-- `struct FullShaders` (full variant record). -/
structure FullShaders where
  pathtag_reduce : ShaderId
  pathtag_scan : ShaderId
  bbox_clear : ShaderId
  pathseg : ShaderId
  draw_reduce : ShaderId
  draw_leaf : ShaderId
  binning : ShaderId
  tile_alloc : ShaderId
  path_coarse : ShaderId
  backdrop : ShaderId
  coarse : ShaderId
  fine : ShaderId
deriving DecidableEq, Repr

/-- Outcome of a build, with the trace of `add_shader` invocations the
engine observed. `panicked` (the `.unwrap()` on a failed read) dies
before any engine call, so it carries no trace. -/
inductive BuildResult (α : Type) where
  | ok (v : α) (trace : List AddShaderCall)
  | engineErr (e : EngineError) (trace : List AddShaderCall)
  | panicked
deriving DecidableEq, Repr

/-- The `add_shader` invocations the engine observed during a build. -/
def BuildResult.callTrace {α : Type} : BuildResult α → List AddShaderCall
  | .ok _ tr => tr
  | .engineErr _ tr => tr
  | .panicked => []

/-- `pub fn init_shaders`, over the result of `load_shader_sources` and
the engine oracle. The tuple is destructured positionally with the
let-names of the source (note positions 9 and 10 are named `coarse_src`
and `backdrop_src`, in that order). Five `add_shader` calls, each
`?`-propagated. -/
def init_shaders (lr : LoadResult) (resp : Resp) : BuildResult Shaders :=
  match lr with
  | .panicked => .panicked
  | .ok t =>
  let pathtag_reduce_src := t.e0
  let pathtag_scan_src := t.e1
  let _bbox_clear_src := t.e2
  let _pathseg_src := t.e3
  let _draw_reduce_src := t.e4
  let _draw_leaf_src := t.e5
  let _binning_src := t.e6
  let _tile_alloc_src := t.e7
  let path_coarse_src := t.e8
  let _coarse_src := t.e9
  let backdrop_src := t.e10
  let fine_src := t.e11
  let empty : List String := []
  let (tr, r) := add_shader resp [] "pathtag_reduce" pathtag_reduce_src empty
    [.BufReadOnly, .BufReadOnly, .Buffer]
  match r with
  | .error e => .engineErr e tr
  | .ok pathtag_reduce =>
  let (tr, r) := add_shader resp tr "pathtag_scan" pathtag_scan_src empty
    [.BufReadOnly, .BufReadOnly, .BufReadOnly, .Buffer]
  match r with
  | .error e => .engineErr e tr
  | .ok pathtag_scan =>
  let path_coarse_config : List String := []
  let (tr, r) := add_shader resp tr "path_coarse" path_coarse_src path_coarse_config
    [.BufReadOnly, .BufReadOnly, .BufReadOnly, .Buffer, .Buffer]
  match r with
  | .error e => .engineErr e tr
  | .ok path_coarse =>
  let (tr, r) := add_shader resp tr "backdrop" backdrop_src empty
    [.BufReadOnly, .Buffer]
  match r with
  | .error e => .engineErr e tr
  | .ok backdrop =>
  let (tr, r) := add_shader resp tr "fine" fine_src empty
    [.BufReadOnly, .BufReadOnly, .BufReadOnly, .Buffer]
  match r with
  | .error e => .engineErr e tr
  | .ok fine =>
  .ok ⟨pathtag_reduce, pathtag_scan, path_coarse, backdrop, fine⟩ tr

/-- `pub fn full_shaders`, over the result of `load_shader_sources` and
the engine oracle. The tuple is destructured positionally with the
let-names of the source (positions 8..10 are named
`path_coarse_full_src`, `coarse_src`, `backdrop_dyn_src`). Twelve
`add_shader` calls, each `?`-propagated; the stages pathtag_reduce,
pathtag_scan, pathseg, path_coarse and fine use `full_config`
(the feature set containing "full"), the rest use `empty`. -/
def full_shaders (lr : LoadResult) (resp : Resp) : BuildResult FullShaders :=
  match lr with
  | .panicked => .panicked
  | .ok t =>
  let pathtag_reduce_src := t.e0
  let pathtag_scan_src := t.e1
  let bbox_clear_src := t.e2
  let pathseg_src := t.e3
  let draw_reduce_src := t.e4
  let draw_leaf_src := t.e5
  let binning_src := t.e6
  let tile_alloc_src := t.e7
  let path_coarse_full_src := t.e8
  let coarse_src := t.e9
  let backdrop_dyn_src := t.e10
  let fine_src := t.e11
  let empty : List String := []
  let full_config : List String := ["full"]
  let (tr, r) := add_shader resp [] "pathtag_reduce" pathtag_reduce_src full_config
    [.BufReadOnly, .BufReadOnly, .Buffer]
  match r with
  | .error e => .engineErr e tr
  | .ok pathtag_reduce =>
  let (tr, r) := add_shader resp tr "pathtag_scan" pathtag_scan_src full_config
    [.BufReadOnly, .BufReadOnly, .BufReadOnly, .Buffer]
  match r with
  | .error e => .engineErr e tr
  | .ok pathtag_scan =>
  let (tr, r) := add_shader resp tr "bbox_clear" bbox_clear_src empty
    [.BufReadOnly, .Buffer]
  match r with
  | .error e => .engineErr e tr
  | .ok bbox_clear =>
  let (tr, r) := add_shader resp tr "pathseg" pathseg_src full_config
    [.BufReadOnly, .BufReadOnly, .BufReadOnly, .Buffer, .Buffer]
  match r with
  | .error e => .engineErr e tr
  | .ok pathseg =>
  let (tr, r) := add_shader resp tr "draw_reduce" draw_reduce_src empty
    [.BufReadOnly, .BufReadOnly, .Buffer]
  match r with
  | .error e => .engineErr e tr
  | .ok draw_reduce =>
  let (tr, r) := add_shader resp tr "draw_leaf" draw_leaf_src empty
    [.BufReadOnly, .BufReadOnly, .BufReadOnly, .BufReadOnly, .Buffer, .Buffer]
  match r with
  | .error e => .engineErr e tr
  | .ok draw_leaf =>
  let (tr, r) := add_shader resp tr "binning" binning_src empty
    [.BufReadOnly, .BufReadOnly, .BufReadOnly, .BufReadOnly,
     .Buffer, .Buffer, .Buffer, .Buffer]
  match r with
  | .error e => .engineErr e tr
  | .ok binning =>
  let (tr, r) := add_shader resp tr "tile_alloc" tile_alloc_src empty
    [.BufReadOnly, .BufReadOnly, .BufReadOnly, .Buffer, .Buffer, .Buffer]
  match r with
  | .error e => .engineErr e tr
  | .ok tile_alloc =>
  let (tr, r) := add_shader resp tr "path_coarse" path_coarse_full_src full_config
    [.BufReadOnly, .BufReadOnly, .BufReadOnly, .BufReadOnly, .BufReadOnly,
     .Buffer, .Buffer, .Buffer]
  match r with
  | .error e => .engineErr e tr
  | .ok path_coarse =>
  let (tr, r) := add_shader resp tr "backdrop" backdrop_dyn_src empty
    [.BufReadOnly, .BufReadOnly, .Buffer]
  match r with
  | .error e => .engineErr e tr
  | .ok backdrop =>
  let (tr, r) := add_shader resp tr "coarse" coarse_src empty
    [.BufReadOnly, .BufReadOnly, .BufReadOnly, .BufReadOnly, .BufReadOnly,
     .BufReadOnly, .BufReadOnly, .BufReadOnly, .Buffer, .Buffer]
  match r with
  | .error e => .engineErr e tr
  | .ok coarse =>
  let (tr, r) := add_shader resp tr "fine" fine_src full_config
    [.BufReadOnly, .BufReadOnly, .BufReadOnly, .Buffer, .BufReadOnly]
  match r with
  | .error e => .engineErr e tr
  | .ok fine =>
  .ok ⟨pathtag_reduce, pathtag_scan, bbox_clear, pathseg, draw_reduce,
       draw_leaf, binning, tile_alloc, path_coarse, backdrop, coarse, fine⟩ tr

/-- `pub const PATHTAG_REDUCE_WG: u32 = 256`. -/
def PATHTAG_REDUCE_WG : Nat := 256

/-- `pub const PATH_BBOX_WG: u32 = 256`. -/
def PATH_BBOX_WG : Nat := 256

/-- `pub const PATH_COARSE_WG: u32 = 256`. -/
def PATH_COARSE_WG : Nat := 256

/-- `pub const PATH_DRAWOBJ_WG: u32 = 256`. -/
def PATH_DRAWOBJ_WG : Nat := 256

/-- Concrete disk filesystem for evaluation: every file is present with
its own file name as content, so the call traces show which file each
stage was read from. -/
def nameFS : FS := fun n => some n

/-- Concrete embedded backend for evaluation: every baked-in file has
its own base name as content. -/
def nameEmb : String → String := fun n => n

/-- Concrete engine oracle that accepts every shader. -/
def acceptAll : Resp := fun n => .ok n

/-- A 12-tuple of blank sources, for witnesses. -/
def blankTup : Tup12 := ⟨"", "", "", "", "", "", "", "", "", "", "", ""⟩

/-- Concrete disk filesystem with `fine.wgsl` removed and every other
file present (content: its own file name). -/
def fsNoFine : FS := fun n => if n = "fine.wgsl" then none else some n

/-- Concrete disk filesystem with `bbox_clear.wgsl` removed and every
other file present (content: its own file name). -/
def fsNoBbox : FS := fun n => if n = "bbox_clear.wgsl" then none else some n

/-- Concrete engine oracle that accepts invocations 0 and 1 and rejects
invocation 2 (and everything after it). -/
def rejectAt2 : Resp := fun n => if n < 2 then .ok n else .error "rejected"

/-- If the disk-backed loader returns a tuple, then every one of the
twelve reads succeeded. -/
theorem load_disk_ok_isSome (fs : FS) (t : Tup12)
    (h : load_shader_sources_disk fs = .ok t) :
    ∀ name ∈ diskShaderNames, (read_shader fs name).isSome := by
  unfold load_shader_sources_disk at h
  rcases h0 : read_shader fs "pathtag_reduce" with _ | s0 <;> rw [h0] at h
  · simp at h
  rcases h1 : read_shader fs "pathtag_scan" with _ | s1 <;> rw [h1] at h
  · simp at h
  rcases h2 : read_shader fs "bbox_clear" with _ | s2 <;> rw [h2] at h
  · simp at h
  rcases h3 : read_shader fs "pathseg" with _ | s3 <;> rw [h3] at h
  · simp at h
  rcases h4 : read_shader fs "draw_reduce" with _ | s4 <;> rw [h4] at h
  · simp at h
  rcases h5 : read_shader fs "draw_leaf" with _ | s5 <;> rw [h5] at h
  · simp at h
  rcases h6 : read_shader fs "binning" with _ | s6 <;> rw [h6] at h
  · simp at h
  rcases h7 : read_shader fs "tile_alloc" with _ | s7 <;> rw [h7] at h
  · simp at h
  rcases h8 : read_shader fs "path_coarse" with _ | s8 <;> rw [h8] at h
  · simp at h
  rcases h9 : read_shader fs "backdrop" with _ | s9 <;> rw [h9] at h
  · simp at h
  rcases h10 : read_shader fs "coarse" with _ | s10 <;> rw [h10] at h
  · simp at h
  rcases h11 : read_shader fs "fine" with _ | s11 <;> rw [h11] at h
  · simp at h
  intro name hmem
  simp only [diskShaderNames, List.mem_cons, List.not_mem_nil, or_false] at hmem
  rcases hmem with rfl | rfl | rfl | rfl | rfl | rfl | rfl | rfl | rfl | rfl | rfl | rfl <;>
    simp [h0, h1, h2, h3, h4, h5, h6, h7, h8, h9, h10, h11]

/-- If any of the twelve reads fails, the disk-backed loader panics. -/
theorem load_disk_panicked_of_missing (fs : FS) (name : String)
    (hmem : name ∈ diskShaderNames) (hmiss : read_shader fs name = none) :
    load_shader_sources_disk fs = .panicked := by
  cases hl : load_shader_sources_disk fs with
  | panicked => rfl
  | ok t =>
    have hs := load_disk_ok_isSome fs t hl name hmem
    rw [hmiss] at hs
    simp at hs

/-- Claim C1 (evaluation at the failing input): with every file present
and holding its own name as content, the stage-to-source mapping the
engine actually observes contradicts the claimed per-variant selection.
On the disk backend the minimal build preprocesses its backdrop stage
from the text of coarse.wgsl (not backdrop.wgsl), and the full build
preprocesses path_coarse from path_coarse.wgsl (not
path_coarse_full.wgsl), backdrop from coarse.wgsl (not
backdrop_dyn.wgsl) and coarse from backdrop.wgsl; on the embedded
backend the minimal build preprocesses path_coarse from
path_coarse_full.wgsl and backdrop from backdrop_dyn.wgsl (not
path_coarse.wgsl / backdrop.wgsl, which the embedded backend does not
even bake in). -/
theorem c1_stage_source_selection_diverges :
    ((init_shaders (load_shader_sources_disk nameFS) acceptAll).callTrace.map
        fun c => (c.stage, c.source)) =
      [("pathtag_reduce", "pathtag_reduce.wgsl"),
       ("pathtag_scan", "pathtag_scan.wgsl"),
       ("path_coarse", "path_coarse.wgsl"),
       ("backdrop", "coarse.wgsl"),
       ("fine", "fine.wgsl")] ∧
    ((init_shaders (load_shader_sources_wasm nameEmb) acceptAll).callTrace.map
        fun c => (c.stage, c.source)) =
      [("pathtag_reduce", "pathtag_reduce"),
       ("pathtag_scan", "pathtag_scan"),
       ("path_coarse", "path_coarse_full"),
       ("backdrop", "backdrop_dyn"),
       ("fine", "fine")] ∧
    ((full_shaders (load_shader_sources_disk nameFS) acceptAll).callTrace.map
        fun c => (c.stage, c.source)) =
      [("pathtag_reduce", "pathtag_reduce.wgsl"),
       ("pathtag_scan", "pathtag_scan.wgsl"),
       ("bbox_clear", "bbox_clear.wgsl"),
       ("pathseg", "pathseg.wgsl"),
       ("draw_reduce", "draw_reduce.wgsl"),
       ("draw_leaf", "draw_leaf.wgsl"),
       ("binning", "binning.wgsl"),
       ("tile_alloc", "tile_alloc.wgsl"),
       ("path_coarse", "path_coarse.wgsl"),
       ("backdrop", "coarse.wgsl"),
       ("coarse", "backdrop.wgsl"),
       ("fine", "fine.wgsl")] ∧
    ((full_shaders (load_shader_sources_wasm nameEmb) acceptAll).callTrace.map
        fun c => (c.stage, c.source)) =
      [("pathtag_reduce", "pathtag_reduce"),
       ("pathtag_scan", "pathtag_scan"),
       ("bbox_clear", "bbox_clear"),
       ("pathseg", "pathseg"),
       ("draw_reduce", "draw_reduce"),
       ("draw_leaf", "draw_leaf"),
       ("binning", "binning"),
       ("tile_alloc", "tile_alloc"),
       ("path_coarse", "path_coarse_full"),
       ("backdrop", "backdrop_dyn"),
       ("coarse", "coarse"),
       ("fine", "fine")] :=
  ⟨rfl, rfl, rfl, rfl⟩

/-- Claim C7 (evaluation at the failing input): on the disk backend,
a successful full build hands the coarse stage the preprocessed text of
backdrop.wgsl and the backdrop stage the preprocessed text of
coarse.wgsl — the claimed coarse.wgsl / backdrop_dyn.wgsl selection
fails (the binding signatures themselves do match the claim). -/
theorem c7_full_disk_coarse_backdrop_sources_swapped :
    ((full_shaders (load_shader_sources_disk nameFS) acceptAll).callTrace.map
        fun c => (c.stage, c.source, c.features, c.bindings)).drop 9 =
      [("backdrop", "coarse.wgsl", [],
        [.BufReadOnly, .BufReadOnly, .Buffer]),
       ("coarse", "backdrop.wgsl", [],
        [.BufReadOnly, .BufReadOnly, .BufReadOnly, .BufReadOnly, .BufReadOnly,
         .BufReadOnly, .BufReadOnly, .BufReadOnly, .Buffer, .Buffer]),
       ("fine", "fine.wgsl", ["full"],
        [.BufReadOnly, .BufReadOnly, .BufReadOnly, .Buffer, .BufReadOnly])] :=
  rfl

/-- Claim C10: the module exposes the four workgroup-size constants,
each equal to 256. (That the shader-registration operations do not read
them is structural: the definitions of init_shaders and full_shaders
above make no reference to any of the four.) -/
theorem c10_workgroup_size_constants :
    PATHTAG_REDUCE_WG = 256 ∧ PATH_BBOX_WG = 256 ∧
    PATH_COARSE_WG = 256 ∧ PATH_DRAWOBJ_WG = 256 :=
  ⟨rfl, rfl, rfl, rfl⟩

/-- Claim C2: whenever the sources load (any loaded tuple) and the
engine accepts every invocation, full_shaders invokes add_shader
exactly 12 times, in the order pathtag_reduce, pathtag_scan,
bbox_clear, pathseg, draw_reduce, draw_leaf, binning, tile_alloc,
path_coarse, backdrop, coarse, fine, with the binding signatures of the
full-variant table. -/
theorem c2_full_call_order_and_signatures (t : Tup12) (resp : Resp)
    (hok : ∀ n, n < 12 → ∃ id, resp n = Except.ok id) :
    ((full_shaders (.ok t) resp).callTrace.map fun c => (c.stage, c.bindings)) =
      [("pathtag_reduce", [.BufReadOnly, .BufReadOnly, .Buffer]),
       ("pathtag_scan", [.BufReadOnly, .BufReadOnly, .BufReadOnly, .Buffer]),
       ("bbox_clear", [.BufReadOnly, .Buffer]),
       ("pathseg", [.BufReadOnly, .BufReadOnly, .BufReadOnly, .Buffer, .Buffer]),
       ("draw_reduce", [.BufReadOnly, .BufReadOnly, .Buffer]),
       ("draw_leaf", [.BufReadOnly, .BufReadOnly, .BufReadOnly, .BufReadOnly,
         .Buffer, .Buffer]),
       ("binning", [.BufReadOnly, .BufReadOnly, .BufReadOnly, .BufReadOnly,
         .Buffer, .Buffer, .Buffer, .Buffer]),
       ("tile_alloc", [.BufReadOnly, .BufReadOnly, .BufReadOnly,
         .Buffer, .Buffer, .Buffer]),
       ("path_coarse", [.BufReadOnly, .BufReadOnly, .BufReadOnly, .BufReadOnly,
         .BufReadOnly, .Buffer, .Buffer, .Buffer]),
       ("backdrop", [.BufReadOnly, .BufReadOnly, .Buffer]),
       ("coarse", [.BufReadOnly, .BufReadOnly, .BufReadOnly, .BufReadOnly,
         .BufReadOnly, .BufReadOnly, .BufReadOnly, .BufReadOnly, .Buffer, .Buffer]),
       ("fine", [.BufReadOnly, .BufReadOnly, .BufReadOnly, .Buffer, .BufReadOnly])] := by
  obtain ⟨i0, h0⟩ := hok 0 (by omega)
  obtain ⟨i1, h1⟩ := hok 1 (by omega)
  obtain ⟨i2, h2⟩ := hok 2 (by omega)
  obtain ⟨i3, h3⟩ := hok 3 (by omega)
  obtain ⟨i4, h4⟩ := hok 4 (by omega)
  obtain ⟨i5, h5⟩ := hok 5 (by omega)
  obtain ⟨i6, h6⟩ := hok 6 (by omega)
  obtain ⟨i7, h7⟩ := hok 7 (by omega)
  obtain ⟨i8, h8⟩ := hok 8 (by omega)
  obtain ⟨i9, h9⟩ := hok 9 (by omega)
  obtain ⟨i10, h10⟩ := hok 10 (by omega)
  obtain ⟨i11, h11⟩ := hok 11 (by omega)
  simp [full_shaders, add_shader, BuildResult.callTrace,
    h0, h1, h2, h3, h4, h5, h6, h7, h8, h9, h10, h11]

/-- Witness for C2 at a concrete tuple and the all-accepting engine. -/
theorem c2_full_call_order_and_signatures_checked :
    ((full_shaders (.ok blankTup) acceptAll).callTrace.map fun c => (c.stage, c.bindings)) =
      [("pathtag_reduce", [.BufReadOnly, .BufReadOnly, .Buffer]),
       ("pathtag_scan", [.BufReadOnly, .BufReadOnly, .BufReadOnly, .Buffer]),
       ("bbox_clear", [.BufReadOnly, .Buffer]),
       ("pathseg", [.BufReadOnly, .BufReadOnly, .BufReadOnly, .Buffer, .Buffer]),
       ("draw_reduce", [.BufReadOnly, .BufReadOnly, .Buffer]),
       ("draw_leaf", [.BufReadOnly, .BufReadOnly, .BufReadOnly, .BufReadOnly,
         .Buffer, .Buffer]),
       ("binning", [.BufReadOnly, .BufReadOnly, .BufReadOnly, .BufReadOnly,
         .Buffer, .Buffer, .Buffer, .Buffer]),
       ("tile_alloc", [.BufReadOnly, .BufReadOnly, .BufReadOnly,
         .Buffer, .Buffer, .Buffer]),
       ("path_coarse", [.BufReadOnly, .BufReadOnly, .BufReadOnly, .BufReadOnly,
         .BufReadOnly, .Buffer, .Buffer, .Buffer]),
       ("backdrop", [.BufReadOnly, .BufReadOnly, .Buffer]),
       ("coarse", [.BufReadOnly, .BufReadOnly, .BufReadOnly, .BufReadOnly,
         .BufReadOnly, .BufReadOnly, .BufReadOnly, .BufReadOnly, .Buffer, .Buffer]),
       ("fine", [.BufReadOnly, .BufReadOnly, .BufReadOnly, .Buffer, .BufReadOnly])] :=
  c2_full_call_order_and_signatures blankTup acceptAll (fun n _ => ⟨n, rfl⟩)

/-- Claim C3: whenever the sources load and the engine accepts every
invocation, init_shaders invokes add_shader exactly 5 times, in the
order pathtag_reduce, pathtag_scan, path_coarse, backdrop, fine, with
the binding signatures of the minimal-variant table. -/
theorem c3_minimal_call_order_and_signatures (t : Tup12) (resp : Resp)
    (hok : ∀ n, n < 5 → ∃ id, resp n = Except.ok id) :
    ((init_shaders (.ok t) resp).callTrace.map fun c => (c.stage, c.bindings)) =
      [("pathtag_reduce", [.BufReadOnly, .BufReadOnly, .Buffer]),
       ("pathtag_scan", [.BufReadOnly, .BufReadOnly, .BufReadOnly, .Buffer]),
       ("path_coarse", [.BufReadOnly, .BufReadOnly, .BufReadOnly, .Buffer, .Buffer]),
       ("backdrop", [.BufReadOnly, .Buffer]),
       ("fine", [.BufReadOnly, .BufReadOnly, .BufReadOnly, .Buffer])] := by
  obtain ⟨i0, h0⟩ := hok 0 (by omega)
  obtain ⟨i1, h1⟩ := hok 1 (by omega)
  obtain ⟨i2, h2⟩ := hok 2 (by omega)
  obtain ⟨i3, h3⟩ := hok 3 (by omega)
  obtain ⟨i4, h4⟩ := hok 4 (by omega)
  simp [init_shaders, add_shader, BuildResult.callTrace, h0, h1, h2, h3, h4]

/-- Witness for C3 at a concrete tuple and the all-accepting engine. -/
theorem c3_minimal_call_order_and_signatures_checked :
    ((init_shaders (.ok blankTup) acceptAll).callTrace.map fun c => (c.stage, c.bindings)) =
      [("pathtag_reduce", [.BufReadOnly, .BufReadOnly, .Buffer]),
       ("pathtag_scan", [.BufReadOnly, .BufReadOnly, .BufReadOnly, .Buffer]),
       ("path_coarse", [.BufReadOnly, .BufReadOnly, .BufReadOnly, .Buffer, .Buffer]),
       ("backdrop", [.BufReadOnly, .Buffer]),
       ("fine", [.BufReadOnly, .BufReadOnly, .BufReadOnly, .Buffer])] :=
  c3_minimal_call_order_and_signatures blankTup acceptAll (fun n _ => ⟨n, rfl⟩)

/-- Claim C4: in a successful full build exactly pathtag_reduce,
pathtag_scan, pathseg, path_coarse and fine are preprocessed with the
feature set containing "full" and every other stage with the empty
feature set; in a successful minimal build every stage is preprocessed
with the empty feature set. -/
theorem c4_feature_sets :
    (∀ (t : Tup12) (resp : Resp), (∀ n, n < 12 → ∃ id, resp n = Except.ok id) →
      ((full_shaders (.ok t) resp).callTrace.map fun c => (c.stage, c.features)) =
        [("pathtag_reduce", ["full"]), ("pathtag_scan", ["full"]),
         ("bbox_clear", []), ("pathseg", ["full"]), ("draw_reduce", []),
         ("draw_leaf", []), ("binning", []), ("tile_alloc", []),
         ("path_coarse", ["full"]), ("backdrop", []), ("coarse", []),
         ("fine", ["full"])]) ∧
    (∀ (t : Tup12) (resp : Resp), (∀ n, n < 5 → ∃ id, resp n = Except.ok id) →
      ((init_shaders (.ok t) resp).callTrace.map fun c => (c.stage, c.features)) =
        [("pathtag_reduce", []), ("pathtag_scan", []), ("path_coarse", []),
         ("backdrop", []), ("fine", [])]) := by
  constructor
  · intro t resp hok
    obtain ⟨i0, h0⟩ := hok 0 (by omega)
    obtain ⟨i1, h1⟩ := hok 1 (by omega)
    obtain ⟨i2, h2⟩ := hok 2 (by omega)
    obtain ⟨i3, h3⟩ := hok 3 (by omega)
    obtain ⟨i4, h4⟩ := hok 4 (by omega)
    obtain ⟨i5, h5⟩ := hok 5 (by omega)
    obtain ⟨i6, h6⟩ := hok 6 (by omega)
    obtain ⟨i7, h7⟩ := hok 7 (by omega)
    obtain ⟨i8, h8⟩ := hok 8 (by omega)
    obtain ⟨i9, h9⟩ := hok 9 (by omega)
    obtain ⟨i10, h10⟩ := hok 10 (by omega)
    obtain ⟨i11, h11⟩ := hok 11 (by omega)
    simp [full_shaders, add_shader, BuildResult.callTrace,
      h0, h1, h2, h3, h4, h5, h6, h7, h8, h9, h10, h11]
  · intro t resp hok
    obtain ⟨i0, h0⟩ := hok 0 (by omega)
    obtain ⟨i1, h1⟩ := hok 1 (by omega)
    obtain ⟨i2, h2⟩ := hok 2 (by omega)
    obtain ⟨i3, h3⟩ := hok 3 (by omega)
    obtain ⟨i4, h4⟩ := hok 4 (by omega)
    simp [init_shaders, add_shader, BuildResult.callTrace, h0, h1, h2, h3, h4]

/-- Witness for C4 at a concrete tuple and the all-accepting engine. -/
theorem c4_feature_sets_checked :
    ((full_shaders (.ok blankTup) acceptAll).callTrace.map fun c => (c.stage, c.features)) =
      [("pathtag_reduce", ["full"]), ("pathtag_scan", ["full"]),
       ("bbox_clear", []), ("pathseg", ["full"]), ("draw_reduce", []),
       ("draw_leaf", []), ("binning", []), ("tile_alloc", []),
       ("path_coarse", ["full"]), ("backdrop", []), ("coarse", []),
       ("fine", ["full"])] ∧
    ((init_shaders (.ok blankTup) acceptAll).callTrace.map fun c => (c.stage, c.features)) =
      [("pathtag_reduce", []), ("pathtag_scan", []), ("path_coarse", []),
       ("backdrop", []), ("fine", [])] :=
  ⟨c4_feature_sets.1 blankTup acceptAll (fun n _ => ⟨n, rfl⟩),
   c4_feature_sets.2 blankTup acceptAll (fun n _ => ⟨n, rfl⟩)⟩

/-- Claim C5, counterexample to the claim as stated: with fine.wgsl
removed and every other file present, build_minimal does not fail with
a returned SourceUnavailable error after 4 recorded calls — it panics
inside the eager source loading, and the engine records 0 calls. -/
theorem c5_claim_counterexample :
    init_shaders (load_shader_sources_disk fsNoFine) acceptAll = .panicked ∧
    (init_shaders (load_shader_sources_disk fsNoFine) acceptAll).callTrace.length ≠ 4 :=
  ⟨rfl, by decide⟩

/-- Claim C5 as amended: if fine.wgsl is missing (all other files
present), build_minimal terminates by a panic in the eager source
loading — no error value is returned — and by that point the engine
has recorded exactly 0 add_shader calls. -/
theorem c5_missing_fine_panics_before_any_call (fs : FS) (resp : Resp)
    (hfine : fs "fine.wgsl" = none)
    (_hothers : ∀ name ∈ diskShaderNames,
      name ≠ "fine" → (fs (name ++ ".wgsl")).isSome) :
    init_shaders (load_shader_sources_disk fs) resp = .panicked ∧
    (init_shaders (load_shader_sources_disk fs) resp).callTrace.length = 0 := by
  have hmiss : read_shader fs "fine" = none := hfine
  have hload := load_disk_panicked_of_missing fs "fine" (by simp [diskShaderNames]) hmiss
  rw [hload]
  exact ⟨rfl, rfl⟩

/-- Witness for the amended C5 at the concrete filesystem missing only
fine.wgsl. -/
theorem c5_missing_fine_panics_before_any_call_checked :
    init_shaders (load_shader_sources_disk fsNoFine) acceptAll = .panicked ∧
    (init_shaders (load_shader_sources_disk fsNoFine) acceptAll).callTrace.length = 0 :=
  c5_missing_fine_panics_before_any_call fsNoFine acceptAll rfl (by decide)

/-- Claim C6: for both build operations, if the engine accepts every
invocation before index N and rejects invocation N with error e, then
the build records exactly the calls for stages 0..N (none after N) and
returns e unchanged (no variant record is produced). -/
theorem c6_engine_rejection_aborts (t : Tup12) (resp : Resp) (N : Nat) (e : EngineError)
    (hprev : ∀ k, k < N → ∃ id, resp k = Except.ok id)
    (hN : resp N = Except.error e) :
    (N < 5 → ∃ tr, init_shaders (.ok t) resp = .engineErr e tr ∧ tr.length = N + 1) ∧
    (N < 12 → ∃ tr, full_shaders (.ok t) resp = .engineErr e tr ∧ tr.length = N + 1) := by
  constructor
  · intro hlt
    interval_cases N
    · simp [init_shaders, add_shader, hN]
    · obtain ⟨i0, h0⟩ := hprev 0 (by omega)
      simp [init_shaders, add_shader, h0, hN]
    · obtain ⟨i0, h0⟩ := hprev 0 (by omega)
      obtain ⟨i1, h1⟩ := hprev 1 (by omega)
      simp [init_shaders, add_shader, h0, h1, hN]
    · obtain ⟨i0, h0⟩ := hprev 0 (by omega)
      obtain ⟨i1, h1⟩ := hprev 1 (by omega)
      obtain ⟨i2, h2⟩ := hprev 2 (by omega)
      simp [init_shaders, add_shader, h0, h1, h2, hN]
    · obtain ⟨i0, h0⟩ := hprev 0 (by omega)
      obtain ⟨i1, h1⟩ := hprev 1 (by omega)
      obtain ⟨i2, h2⟩ := hprev 2 (by omega)
      obtain ⟨i3, h3⟩ := hprev 3 (by omega)
      simp [init_shaders, add_shader, h0, h1, h2, h3, hN]
  · intro hlt
    interval_cases N
    · simp [full_shaders, add_shader, hN]
    · obtain ⟨i0, h0⟩ := hprev 0 (by omega)
      simp [full_shaders, add_shader, h0, hN]
    · obtain ⟨i0, h0⟩ := hprev 0 (by omega)
      obtain ⟨i1, h1⟩ := hprev 1 (by omega)
      simp [full_shaders, add_shader, h0, h1, hN]
    · obtain ⟨i0, h0⟩ := hprev 0 (by omega)
      obtain ⟨i1, h1⟩ := hprev 1 (by omega)
      obtain ⟨i2, h2⟩ := hprev 2 (by omega)
      simp [full_shaders, add_shader, h0, h1, h2, hN]
    · obtain ⟨i0, h0⟩ := hprev 0 (by omega)
      obtain ⟨i1, h1⟩ := hprev 1 (by omega)
      obtain ⟨i2, h2⟩ := hprev 2 (by omega)
      obtain ⟨i3, h3⟩ := hprev 3 (by omega)
      simp [full_shaders, add_shader, h0, h1, h2, h3, hN]
    · obtain ⟨i0, h0⟩ := hprev 0 (by omega)
      obtain ⟨i1, h1⟩ := hprev 1 (by omega)
      obtain ⟨i2, h2⟩ := hprev 2 (by omega)
      obtain ⟨i3, h3⟩ := hprev 3 (by omega)
      obtain ⟨i4, h4⟩ := hprev 4 (by omega)
      simp [full_shaders, add_shader, h0, h1, h2, h3, h4, hN]
    · obtain ⟨i0, h0⟩ := hprev 0 (by omega)
      obtain ⟨i1, h1⟩ := hprev 1 (by omega)
      obtain ⟨i2, h2⟩ := hprev 2 (by omega)
      obtain ⟨i3, h3⟩ := hprev 3 (by omega)
      obtain ⟨i4, h4⟩ := hprev 4 (by omega)
      obtain ⟨i5, h5⟩ := hprev 5 (by omega)
      simp [full_shaders, add_shader, h0, h1, h2, h3, h4, h5, hN]
    · obtain ⟨i0, h0⟩ := hprev 0 (by omega)
      obtain ⟨i1, h1⟩ := hprev 1 (by omega)
      obtain ⟨i2, h2⟩ := hprev 2 (by omega)
      obtain ⟨i3, h3⟩ := hprev 3 (by omega)
      obtain ⟨i4, h4⟩ := hprev 4 (by omega)
      obtain ⟨i5, h5⟩ := hprev 5 (by omega)
      obtain ⟨i6, h6⟩ := hprev 6 (by omega)
      simp [full_shaders, add_shader, h0, h1, h2, h3, h4, h5, h6, hN]
    · obtain ⟨i0, h0⟩ := hprev 0 (by omega)
      obtain ⟨i1, h1⟩ := hprev 1 (by omega)
      obtain ⟨i2, h2⟩ := hprev 2 (by omega)
      obtain ⟨i3, h3⟩ := hprev 3 (by omega)
      obtain ⟨i4, h4⟩ := hprev 4 (by omega)
      obtain ⟨i5, h5⟩ := hprev 5 (by omega)
      obtain ⟨i6, h6⟩ := hprev 6 (by omega)
      obtain ⟨i7, h7⟩ := hprev 7 (by omega)
      simp [full_shaders, add_shader, h0, h1, h2, h3, h4, h5, h6, h7, hN]
    · obtain ⟨i0, h0⟩ := hprev 0 (by omega)
      obtain ⟨i1, h1⟩ := hprev 1 (by omega)
      obtain ⟨i2, h2⟩ := hprev 2 (by omega)
      obtain ⟨i3, h3⟩ := hprev 3 (by omega)
      obtain ⟨i4, h4⟩ := hprev 4 (by omega)
      obtain ⟨i5, h5⟩ := hprev 5 (by omega)
      obtain ⟨i6, h6⟩ := hprev 6 (by omega)
      obtain ⟨i7, h7⟩ := hprev 7 (by omega)
      obtain ⟨i8, h8⟩ := hprev 8 (by omega)
      simp [full_shaders, add_shader, h0, h1, h2, h3, h4, h5, h6, h7, h8, hN]
    · obtain ⟨i0, h0⟩ := hprev 0 (by omega)
      obtain ⟨i1, h1⟩ := hprev 1 (by omega)
      obtain ⟨i2, h2⟩ := hprev 2 (by omega)
      obtain ⟨i3, h3⟩ := hprev 3 (by omega)
      obtain ⟨i4, h4⟩ := hprev 4 (by omega)
      obtain ⟨i5, h5⟩ := hprev 5 (by omega)
      obtain ⟨i6, h6⟩ := hprev 6 (by omega)
      obtain ⟨i7, h7⟩ := hprev 7 (by omega)
      obtain ⟨i8, h8⟩ := hprev 8 (by omega)
      obtain ⟨i9, h9⟩ := hprev 9 (by omega)
      simp [full_shaders, add_shader, h0, h1, h2, h3, h4, h5, h6, h7, h8, h9, hN]
    · obtain ⟨i0, h0⟩ := hprev 0 (by omega)
      obtain ⟨i1, h1⟩ := hprev 1 (by omega)
      obtain ⟨i2, h2⟩ := hprev 2 (by omega)
      obtain ⟨i3, h3⟩ := hprev 3 (by omega)
      obtain ⟨i4, h4⟩ := hprev 4 (by omega)
      obtain ⟨i5, h5⟩ := hprev 5 (by omega)
      obtain ⟨i6, h6⟩ := hprev 6 (by omega)
      obtain ⟨i7, h7⟩ := hprev 7 (by omega)
      obtain ⟨i8, h8⟩ := hprev 8 (by omega)
      obtain ⟨i9, h9⟩ := hprev 9 (by omega)
      obtain ⟨i10, h10⟩ := hprev 10 (by omega)
      simp [full_shaders, add_shader, h0, h1, h2, h3, h4, h5, h6, h7, h8, h9, h10, hN]

/-- Witness for C6: the engine rejects invocation 2; both builds stop
after 3 recorded calls and propagate the error. -/
theorem c6_engine_rejection_aborts_checked :
    (∃ tr, init_shaders (.ok blankTup) rejectAt2 = .engineErr "rejected" tr ∧
      tr.length = 3) ∧
    (∃ tr, full_shaders (.ok blankTup) rejectAt2 = .engineErr "rejected" tr ∧
      tr.length = 3) := by
  have h := c6_engine_rejection_aborts blankTup rejectAt2 2 "rejected"
    (fun k hk => ⟨k, by simp [rejectAt2, hk]⟩) (by simp [rejectAt2])
  exact ⟨h.1 (by omega), h.2 (by omega)⟩

/-- Claim C8, counterexample to the claim as stated: with
bbox_clear.wgsl removed from the disk, both builds terminate in the
loader panic — no SourceUnavailable error value is returned to the
caller (the result is not an engineErr and not an ok record). -/
theorem c8_claim_counterexample :
    init_shaders (load_shader_sources_disk fsNoBbox) acceptAll = .panicked ∧
    full_shaders (load_shader_sources_disk fsNoBbox) acceptAll = .panicked :=
  ⟨rfl, rfl⟩

/-- Claim C8 as amended: on the disk-backed source provider, a missing
shader file (or one that is unreadable or not valid UTF-8, both of
which make the read fail) causes either build operation to terminate by
a panic inside load_shader_sources; the current build is aborted but no
error value is yielded to the caller. -/
theorem c8_missing_or_invalid_file_panics (fs : FS) (resp : Resp) (name : String)
    (hmem : name ∈ diskShaderNames) (hmiss : fs (name ++ ".wgsl") = none) :
    init_shaders (load_shader_sources_disk fs) resp = .panicked ∧
    full_shaders (load_shader_sources_disk fs) resp = .panicked := by
  have hload := load_disk_panicked_of_missing fs name hmem hmiss
  rw [hload]
  exact ⟨rfl, rfl⟩

/-- Witness for the amended C8 at the concrete filesystem missing
bbox_clear.wgsl. -/
theorem c8_missing_or_invalid_file_panics_checked :
    init_shaders (load_shader_sources_disk fsNoBbox) acceptAll = .panicked ∧
    full_shaders (load_shader_sources_disk fsNoBbox) acceptAll = .panicked :=
  c8_missing_or_invalid_file_panics fsNoBbox acceptAll "bbox_clear" (by decide) rfl

/-- Claim C9: both builders eagerly load all 12 sources before any
add_shader call, so a failed load of any of the 12 files — including
the seven whose text the minimal variant never registers — aborts the
build with the engine having observed no call at all. -/
theorem c9_eager_load_before_any_engine_call (fs : FS) (resp : Resp) (name : String)
    (hmem : name ∈ diskShaderNames) (hmiss : read_shader fs name = none) :
    init_shaders (load_shader_sources_disk fs) resp = .panicked ∧
    (init_shaders (load_shader_sources_disk fs) resp).callTrace = [] ∧
    full_shaders (load_shader_sources_disk fs) resp = .panicked ∧
    (full_shaders (load_shader_sources_disk fs) resp).callTrace = [] := by
  have hload := load_disk_panicked_of_missing fs name hmem hmiss
  rw [hload]
  exact ⟨rfl, rfl, rfl, rfl⟩

/-- Witness for C9: bbox_clear.wgsl is one of the seven files the
minimal variant never registers, yet its absence aborts build_minimal
with zero engine calls. -/
theorem c9_eager_load_before_any_engine_call_checked :
    init_shaders (load_shader_sources_disk fsNoBbox) acceptAll = .panicked ∧
    (init_shaders (load_shader_sources_disk fsNoBbox) acceptAll).callTrace = [] ∧
    full_shaders (load_shader_sources_disk fsNoBbox) acceptAll = .panicked ∧
    (full_shaders (load_shader_sources_disk fsNoBbox) acceptAll).callTrace = [] :=
  c9_eager_load_before_any_engine_call fsNoBbox acceptAll "bbox_clear" (by decide) rfl

end PietWgsl
